import Mathlib

/-!
Shallow embedding of the exam-proctoring backend (`src/main.py`) and proofs
of its specification claims.

Modelling conventions:
* Byte strings (password bytes, random seeds, digests) are `List Nat` with
  each element intended `< 256`; 32-bit machine words are `Nat` reduced
  `% 2 ^ 32` wherever overflow matters.
* `hashlib.sha256` / `hashlib.sha1` are embedded as executable SHA-256 /
  SHA-1 over byte lists (FIPS 180-4), with `hexdigest` producing lowercase
  hex characters.
* MongoDB is embedded as an in-memory store: two lists of documents kept in
  insertion order (`find_one` returns the first match in that order,
  matching natural order for these collections), with `insert_one`
  appending and assigning a fresh numeric `ObjectId` from a counter.
* `datetime.now(timezone.utc)` is an effect; each syntactic call site in the
  source becomes one explicit timestamp argument, in source order.
* HTTP failure (`HTTPException`) is `Except HErr`; handlers that write are
  state-passing (`DB × Except HErr …`).
-/

/-! ### 32-bit word arithmetic -/

def M32 : Nat := 4294967296

def add32 (a b : Nat) : Nat := (a + b) % M32

def xor32 (a b : Nat) : Nat := Nat.xor a b

def and32 (a b : Nat) : Nat := Nat.land a b

def or32 (a b : Nat) : Nat := Nat.lor a b

def not32 (a : Nat) : Nat := Nat.xor a (M32 - 1)

def rotr32 (n x : Nat) : Nat := (x / 2 ^ n + (x % 2 ^ n) * 2 ^ (32 - n)) % M32

def rotl32 (n x : Nat) : Nat := rotr32 (32 - n) x

def shr32 (n x : Nat) : Nat := x / 2 ^ n

/-! ### Hex rendering (Python `hexdigest` and `str(ObjectId)` are lowercase hex) -/

def hexChar (n : Nat) : Char :=
  match n % 16 with
  | 0 => '0' | 1 => '1' | 2 => '2' | 3 => '3'
  | 4 => '4' | 5 => '5' | 6 => '6' | 7 => '7'
  | 8 => '8' | 9 => '9' | 10 => 'a' | 11 => 'b'
  | 12 => 'c' | 13 => 'd' | 14 => 'e' | _ => 'f'

def byteHex (b : Nat) : List Char := [hexChar (b / 16), hexChar b]

def bytesHex (bs : List Nat) : List Char := (bs.map byteHex).flatten

/-- A lowercase hexadecimal digit, as the spec's "lowercase hex characters". -/
def isLowerHex (c : Char) : Bool := c.isDigit || ('a' ≤ c && c ≤ 'f')

/-! ### Message padding shared by SHA-1 and SHA-256 (FIPS 180-4) -/

def padMessage (msg : List Nat) : List Nat :=
  let bitLen := msg.length * 8
  let zeros := (119 - msg.length % 64) % 64
  msg ++ [128] ++ List.replicate zeros 0 ++
    ((List.range 8).reverse.map fun i => bitLen / 2 ^ (8 * i) % 256)

def bytesToWords : List Nat → List Nat
  | a :: b :: c :: d :: rest => (((a * 256 + b) * 256 + c) * 256 + d) :: bytesToWords rest
  | _ => []

def wordBytes (w : Nat) : List Nat :=
  [w / 2 ^ 24 % 256, w / 2 ^ 16 % 256, w / 2 ^ 8 % 256, w % 256]

def blocks16 (ws : List Nat) : List (List Nat) :=
  (List.range (ws.length / 16)).map fun i => (ws.drop (16 * i)).take 16

def iterate (f : α → α) : Nat → α → α
  | 0, a => a
  | n + 1, a => iterate f n (f a)

/-! ### SHA-256 -/

structure Sha256State where
  a : Nat
  b : Nat
  c : Nat
  d : Nat
  e : Nat
  f : Nat
  g : Nat
  h : Nat
deriving Repr, DecidableEq

def sha256Init : Sha256State :=
  ⟨1779033703, 3144134277, 1013904242, 2773480762,
   1359893119, 2600822924, 528734635, 1541459225⟩

def sha256K : List Nat :=
  [1116352408, 1899447441, 3049323471, 3921009573, 961987163, 1508970993,
   2453635748, 2870763221, 3624381080, 310598401, 607225278, 1426881987,
   1925078388, 2162078206, 2614888103, 3248222580, 3835390401, 4022224774,
   264347078, 604807628, 770255983, 1249150122, 1555081692, 1996064986,
   2554220882, 2821834349, 2952996808, 3210313671, 3336571891, 3584528711,
   113926993, 338241895, 666307205, 773529912, 1294757372, 1396182291,
   1695183700, 1986661051, 2177026350, 2456956037, 2730485921, 2820302411,
   3259730800, 3345764771, 3516065817, 3600352804, 4094571909, 275423344,
   430227734, 506948616, 659060556, 883997877, 958139571, 1322822218,
   1537002063, 1747873779, 1955562222, 2024104815, 2227730452, 2361852424,
   2428436474, 2756734187, 3204031479, 3329325298]

def sha256ExtendStep (ws : List Nat) : List Nat :=
  let i := ws.length
  let w15 := ws.getD (i - 15) 0
  let w2 := ws.getD (i - 2) 0
  let s0 := xor32 (xor32 (rotr32 7 w15) (rotr32 18 w15)) (shr32 3 w15)
  let s1 := xor32 (xor32 (rotr32 17 w2) (rotr32 19 w2)) (shr32 10 w2)
  ws ++ [(ws.getD (i - 16) 0 + s0 + ws.getD (i - 7) 0 + s1) % M32]

def sha256Schedule (block : List Nat) : List Nat := iterate sha256ExtendStep 48 block

def sha256Round (st : Sha256State) (kw : Nat × Nat) : Sha256State :=
  let s1 := xor32 (xor32 (rotr32 6 st.e) (rotr32 11 st.e)) (rotr32 25 st.e)
  let ch := xor32 (and32 st.e st.f) (and32 (not32 st.e) st.g)
  let temp1 := (st.h + s1 + ch + kw.1 + kw.2) % M32
  let s0 := xor32 (xor32 (rotr32 2 st.a) (rotr32 13 st.a)) (rotr32 22 st.a)
  let maj := xor32 (xor32 (and32 st.a st.b) (and32 st.a st.c)) (and32 st.b st.c)
  let temp2 := (s0 + maj) % M32
  ⟨(temp1 + temp2) % M32, st.a, st.b, st.c, (st.d + temp1) % M32, st.e, st.f, st.g⟩

def sha256Compress (st : Sha256State) (block : List Nat) : Sha256State :=
  let fin := (sha256K.zip (sha256Schedule block)).foldl sha256Round st
  ⟨add32 st.a fin.a, add32 st.b fin.b, add32 st.c fin.c, add32 st.d fin.d,
   add32 st.e fin.e, add32 st.f fin.f, add32 st.g fin.g, add32 st.h fin.h⟩

def sha256Bytes (msg : List Nat) : List Nat :=
  let st := (blocks16 (bytesToWords (padMessage msg))).foldl sha256Compress sha256Init
  ([st.a, st.b, st.c, st.d, st.e, st.f, st.g, st.h].map wordBytes).flatten

/-- `hashlib.sha256(...).hexdigest()`. -/
def sha256hex (msg : List Nat) : String := String.mk (bytesHex (sha256Bytes msg))

/-! ### SHA-1 -/

structure Sha1State where
  a : Nat
  b : Nat
  c : Nat
  d : Nat
  e : Nat
deriving Repr, DecidableEq

def sha1Init : Sha1State :=
  ⟨1732584193, 4023233417, 2562383102, 271733878, 3285377520⟩

def sha1ExtendStep (ws : List Nat) : List Nat :=
  let i := ws.length
  ws ++ [rotl32 1 (xor32 (xor32 (ws.getD (i - 3) 0) (ws.getD (i - 8) 0))
    (xor32 (ws.getD (i - 14) 0) (ws.getD (i - 16) 0)))]

def sha1Schedule (block : List Nat) : List Nat := iterate sha1ExtendStep 64 block

def sha1F (i b c d : Nat) : Nat :=
  if i < 20 then or32 (and32 b c) (and32 (not32 b) d)
  else if i < 40 then xor32 (xor32 b c) d
  else if i < 60 then or32 (or32 (and32 b c) (and32 b d)) (and32 c d)
  else xor32 (xor32 b c) d

def sha1KC (i : Nat) : Nat :=
  if i < 20 then 1518500249
  else if i < 40 then 1859775393
  else if i < 60 then 2400959708
  else 3395469782

def sha1Round (st : Sha1State) (iw : Nat × Nat) : Sha1State :=
  let temp := (rotl32 5 st.a + sha1F iw.1 st.b st.c st.d + st.e + sha1KC iw.1 + iw.2) % M32
  ⟨temp, st.a, rotl32 30 st.b, st.c, st.d⟩

def sha1Compress (st : Sha1State) (block : List Nat) : Sha1State :=
  let fin := ((List.range 80).zip (sha1Schedule block)).foldl sha1Round st
  ⟨add32 st.a fin.a, add32 st.b fin.b, add32 st.c fin.c, add32 st.d fin.d, add32 st.e fin.e⟩

def sha1Bytes (msg : List Nat) : List Nat :=
  let st := (blocks16 (bytesToWords (padMessage msg))).foldl sha1Compress sha1Init
  ([st.a, st.b, st.c, st.d, st.e].map wordBytes).flatten

/-- `hashlib.sha1(...).hexdigest()`. -/
def sha1hex (msg : List Nat) : List Char := bytesHex (sha1Bytes msg)

/- Known-answer sanity checks against the published SHA test vectors
(the digests of the empty message). -/
set_option maxRecDepth 8000

example : sha256hex [] =
    "e3b0c44298fc1c149afbf4c8996fb92427ae41e4649b934ca495991b7852b855" := by decide

example : String.mk (sha1hex []) = "da39a3ee5e6b4b0d3255bfef95601890afd80709" := by decide

/-! ### ObjectId (bson): `str(ObjectId)` is 24 lowercase hex chars of the
12-byte value; `ObjectId(s)` accepts exactly 24-char hex strings. -/

def objectIdHexList (n : Nat) : List Char :=
  (List.range 24).reverse.map fun i => hexChar (n / 16 ^ i)

def objectIdHex (n : Nat) : String := String.mk (objectIdHexList n)

def isHexCharB (c : Char) : Bool :=
  ('0' ≤ c && c ≤ '9') || ('a' ≤ c && c ≤ 'f') || ('A' ≤ c && c ≤ 'F')

def hexVal (c : Char) : Nat :=
  if '0' ≤ c && c ≤ '9' then c.toNat - '0'.toNat
  else if 'a' ≤ c && c ≤ 'f' then c.toNat - 'a'.toNat + 10
  else if 'A' ≤ c && c ≤ 'F' then c.toNat - 'A'.toNat + 10
  else 0

def hexStrToNat (s : String) : Nat := s.data.foldl (fun a c => a * 16 + hexVal c) 0

/-- An `HTTPException`: status code and detail message. -/
structure HErr where
  status : Nat
  detail : String
deriving Repr, DecidableEq

/-- `oid` from main.py: `ObjectId(obj_id)` succeeds exactly on structurally
valid ObjectId strings (24 hex chars); otherwise HTTP 400 "Invalid ID". -/
def oid (obj_id : String) : Except HErr Nat :=
  if obj_id.length == 24 && obj_id.data.all isHexCharB then .ok (hexStrToNat obj_id)
  else .error ⟨400, "Invalid ID"⟩

/-- `hash_password` from main.py, over the UTF-8 bytes of the password:
`hashlib.sha256(pw.encode()).hexdigest()`. -/
def hash_password (pw : List Nat) : String := sha256hex pw

/-- `make_slug` from main.py: `hashlib.sha1(os.urandom(16)).hexdigest()[:8]`,
as a function of the 16 random bytes. -/
def make_slug (seed : List Nat) : String := String.mk ((sha1hex seed).take 8)

/-! ### Store documents and in-memory Mongo model -/

structure ExamDoc where
  oidV : Nat
  url : String
  password_hash : String
  slug : String
  created_at : Nat
  updated_at : Nat
deriving Repr, DecidableEq

structure LogDoc where
  exam_id : Nat
  type : String
  details : String
  client_ts : Option Int
  server_ts : Nat
  ip : Option String
  ua : Option String
deriving Repr, DecidableEq

/-- The document store: the `exam` and `examlog` collections in insertion
order, plus the next ObjectId value `insert_one` will assign. -/
structure DB where
  exam : List ExamDoc
  examlog : List LogDoc
  nextId : Nat
deriving Repr, DecidableEq

structure CreateResp where
  id : String
  slug : String
  short_url : String
  embed_url : String
deriving Repr, DecidableEq

structure SlugResp where
  id : String
  slug : String
  embed_url : String
deriving Repr, DecidableEq

structure VerifyResp where
  ok : Bool
  message : String
deriving Repr, DecidableEq

/-- Python `s.rstrip('/')`: remove every trailing slash. -/
def rstripSlashes (s : String) : String :=
  String.mk ((s.data.reverse.dropWhile fun c => c == '/').reverse)

/-- `create_exam` from main.py. `frontend_base` is
`os.getenv("FRONTEND_BASE_URL")`, `base_url` is `str(request.base_url)`,
`seed` the 16 random bytes consumed by `make_slug`, `now1`/`now2` the two
`datetime.now(timezone.utc)` reads in source order (`created_at` then
`updated_at`), `url` the validated absolute URL, `password` its UTF-8 bytes. -/
def create_exam (frontend_base : Option String) (base_url : String)
    (seed : List Nat) (now1 now2 : Nat) (url : String) (password : List Nat)
    (db : DB) : DB × CreateResp :=
  let slug := make_slug seed
  let password_hash := hash_password password
  let exam_doc : ExamDoc :=
    { oidV := db.nextId, url := url, password_hash := password_hash, slug := slug,
      created_at := now1, updated_at := now2 }
  let db' : DB := { db with exam := db.exam ++ [exam_doc], nextId := db.nextId + 1 }
  let path := "/x/" ++ slug
  let short_url :=
    match frontend_base with
    | some fb => if fb ≠ "" then rstripSlashes fb ++ path else rstripSlashes base_url ++ path
    | none => rstripSlashes base_url ++ path
  (db', { id := objectIdHex db.nextId, slug := slug, short_url := short_url,
          embed_url := url })

/-- `get_exam_by_slug` from main.py: `find_one({"slug": slug})` is the first
document in natural order whose slug matches. -/
def get_exam_by_slug (slug : String) (db : DB) : Except HErr SlugResp :=
  match db.exam.find? (fun e => e.slug == slug) with
  | none => .error ⟨404, "Exam not found"⟩
  | some doc => .ok { id := objectIdHex doc.oidV, slug := slug, embed_url := doc.url }

/-- `verify_exam_password` from main.py. -/
def verify_exam_password (exam_id : String) (password : List Nat) (db : DB) :
    Except HErr VerifyResp := do
  let i ← oid exam_id
  match db.exam.find? (fun e => e.oidV == i) with
  | none => .error ⟨404, "Exam not found"⟩
  | some doc =>
    let ok := doc.password_hash == hash_password password
    .ok { ok := ok, message := if ok then "OK" else "Invalid password" }

/-- Request body of `log_event` (`LogBody` in main.py); `details` defaults to
`""` at the validation layer, an explicit `null` arrives as `none`. -/
structure LogBody where
  type : String
  details : Option String
  ts : Option Int
deriving Repr, DecidableEq

/-- `log_event` from main.py. `now` is the `datetime.now(timezone.utc)` read
for `server_ts`; `client_host` is `request.client.host` (when present) and
`user_agent` the request's user-agent header. The store is threaded through:
on failure it is returned unchanged next to the error. `body.details or ""`
maps both `None` and `""` to `""`, i.e. `Option.getD "" `. -/
def log_event (exam_id : String) (body : LogBody) (now : Nat)
    (client_host : Option String) (user_agent : Option String) (db : DB) :
    DB × Except HErr Bool :=
  match oid exam_id with
  | .error e => (db, .error e)
  | .ok i =>
    if (db.exam.find? (fun e => e.oidV == i)).isNone then
      (db, .error ⟨404, "Exam not found"⟩)
    else
      let evt : LogDoc :=
        { exam_id := i, type := body.type, details := body.details.getD "",
          client_ts := body.ts, server_ts := now, ip := client_host, ua := user_agent }
      ({ db with examlog := db.examlog ++ [evt] }, .ok true)

/-! ### Export: ISO-8601 rendering (`datetime.isoformat`) -/

/-- Proleptic-Gregorian civil date (year, month, day) from days since
1970-01-01, the algorithm underlying `datetime`'s conversions. -/
def civilFromDays (z : Int) : Int × Nat × Nat :=
  let zs := z + 719468
  let era : Int := Int.fdiv zs 146097
  let doe : Nat := (zs - era * 146097).toNat
  let yoe : Nat := (doe - doe / 1460 + doe / 36524 - doe / 146096) / 365
  let doy : Nat := doe - (365 * yoe + yoe / 4 - yoe / 100)
  let mp : Nat := (5 * doy + 2) / 153
  let d : Nat := doy - (153 * mp + 2) / 5 + 1
  let m : Nat := if mp < 10 then mp + 3 else mp - 9
  ((era * 400 + yoe : Int) + (if m ≤ 2 then 1 else 0), m, d)

def padNum (w n : Nat) : String :=
  let s := toString n
  String.mk (List.replicate (w - s.length) '0') ++ s

/-- `datetime.isoformat()` of the instant `secs` seconds + `micros`
microseconds after the epoch: `YYYY-MM-DDTHH:MM:SS[.ffffff]`. -/
def isoCore (secs : Int) (micros : Nat) : String :=
  let days := Int.fdiv secs 86400
  let sod := (secs - days * 86400).toNat
  let ymd := civilFromDays days
  let yStr := if ymd.1 < 0 then "-" ++ padNum 4 (-ymd.1).toNat else padNum 4 ymd.1.toNat
  yStr ++ "-" ++ padNum 2 ymd.2.1 ++ "-" ++ padNum 2 ymd.2.2 ++ "T" ++
    padNum 2 (sod / 3600) ++ ":" ++ padNum 2 (sod % 3600 / 60) ++ ":" ++
    padNum 2 (sod % 60) ++ (if micros != 0 then "." ++ padNum 6 micros else "")

/-- `datetime.fromtimestamp(ms / 1000.0).isoformat()` with the process in a
UTC local timezone (naive rendering, no offset suffix). -/
def clientIso (ms : Int) : String :=
  isoCore (Int.fdiv ms 1000) ((Int.fmod ms 1000).toNat * 1000)

/-- `server_ts.astimezone(timezone.utc).isoformat()`; `server_ts` is modelled
at whole-second resolution, so the rendering carries the `+00:00` offset. -/
def serverIso (t : Nat) : String := isoCore (Int.ofNat t) 0 ++ "+00:00"

/-! ### Export: worksheet construction -/

/-- One appended worksheet data row (the cells of `ws.append([...])`). -/
structure Row where
  seq : Nat
  event : String
  details : String
  clientTime : String
  serverTime : String
  ip : Option String
  ua : Option String
deriving Repr, DecidableEq

/-- The produced workbook content plus the download filename. -/
structure Sheet where
  header : List String
  rows : List Row
  filename : String
deriving Repr, DecidableEq

/-- The export loop's client-time cell: the truthiness test
`... if l.get("client_ts") else ""` treats both a missing value and `0` as
falsy, so only a present, non-zero `client_ts` is rendered. -/
def clientTimeCell (ts : Option Int) : String :=
  match ts with
  | none => ""
  | some t => if t != 0 then clientIso t else ""

/-- One data row of the export loop; `server_ts` is always written by
`log_event`, and a `datetime` is always truthy, so it is always rendered. -/
def rowOf (i : Nat) (l : LogDoc) : Row :=
  { seq := i, event := l.type, details := l.details,
    clientTime := clientTimeCell l.client_ts,
    serverTime := serverIso l.server_ts, ip := l.ip, ua := l.ua }

/-- `enumerate(logs, start=1)`. -/
def numberFrom (k : Nat) : List α → List (Nat × α)
  | [] => []
  | a :: rest => (k, a) :: numberFrom (k + 1) rest

/-- Ascending comparison on the authoritative ordering key. -/
def tsLe (a b : LogDoc) : Prop := a.server_ts ≤ b.server_ts

instance : DecidableRel tsLe := fun a b => Nat.decLe a.server_ts b.server_ts

instance : IsTotal LogDoc tsLe := ⟨fun a b => Nat.le_total a.server_ts b.server_ts⟩

instance : IsTrans LogDoc tsLe := ⟨fun _ _ _ => Nat.le_trans⟩

def exportHeader : List String :=
  ["#", "Event", "Details", "Client Time", "Server Time", "IP", "User Agent"]

/-- `export_log` from main.py. The cursor
`find({"exam_id": oid}).sort("server_ts", 1)` is embedded as a stable
ascending sort by `server_ts` over the matching entries in natural
(insertion) order; the workbook is its row content. -/
def export_log (exam_id : String) (db : DB) : Except HErr Sheet := do
  let i ← oid exam_id
  if (db.exam.find? (fun e => e.oidV == i)).isNone then
    .error ⟨404, "Exam not found"⟩
  else
    let logs := List.insertionSort tsLe (db.examlog.filter fun l => l.exam_id == i)
    .ok { header := exportHeader,
          rows := (numberFrom 1 logs).map fun p => rowOf p.1 p.2,
          filename := "exam_" ++ exam_id ++ "_log.xlsx" }

/-! ### Helper lemmas: hex characters -/

theorem isLowerHex_hexChar (n : Nat) : isLowerHex (hexChar n) = true := by
  unfold hexChar
  have hlt : n % 16 < 16 := Nat.mod_lt n (by omega)
  set m := n % 16 with hm
  interval_cases m <;> decide

theorem isHexCharB_hexChar (n : Nat) : isHexCharB (hexChar n) = true := by
  unfold hexChar
  have hlt : n % 16 < 16 := Nat.mod_lt n (by omega)
  set m := n % 16 with hm
  interval_cases m <;> decide

theorem hexVal_hexChar (n : Nat) : hexVal (hexChar n) = n % 16 := by
  unfold hexChar hexVal
  have hlt : n % 16 < 16 := Nat.mod_lt n (by omega)
  set m := n % 16 with hm
  interval_cases m <;> decide

theorem bytesHex_length (bs : List Nat) : (bytesHex bs).length = 2 * bs.length := by
  induction bs with
  | nil => rfl
  | cons b rest ih =>
    simp only [bytesHex, List.map_cons, List.flatten_cons] at *
    simp [byteHex, ih]
    omega

theorem isLowerHex_of_mem_bytesHex {c : Char} {bs : List Nat} (h : c ∈ bytesHex bs) :
    isLowerHex c = true := by
  induction bs with
  | nil => simp [bytesHex] at h
  | cons b rest ih =>
    simp only [bytesHex, List.map_cons, List.flatten_cons, List.mem_append] at h
    rcases h with h | h
    · simp [byteHex] at h
      rcases h with h | h <;> (subst h; exact isLowerHex_hexChar _)
    · exact ih (by simpa [bytesHex] using h)

theorem sha1Bytes_length (msg : List Nat) : (sha1Bytes msg).length = 20 := by
  simp [sha1Bytes, wordBytes]

theorem sha1hex_length (msg : List Nat) : (sha1hex msg).length = 40 := by
  rw [sha1hex, bytesHex_length, sha1Bytes_length]

/-! ### C5 -/

/-- C5: for every 16-byte random seed, `make_slug` (truncation of the SHA-1
hexdigest of the seed to 8 characters) returns a slug of length exactly 8
consisting only of lowercase hexadecimal characters. -/
theorem make_slug_len_and_charset (seed : List Nat) (h : seed.length = 16) :
    (make_slug seed).length = 8 ∧ (make_slug seed).data.all isLowerHex = true := by
  constructor
  · show ((sha1hex seed).take 8).length = 8
    rw [List.length_take, sha1hex_length]
    decide
  · show ((sha1hex seed).take 8).all isLowerHex = true
    rw [List.all_eq_true]
    intro c hc
    exact isLowerHex_of_mem_bytesHex (List.take_subset _ _ hc)

/-- Witness for C5 at the concrete all-zero 16-byte seed. -/
theorem make_slug_len_and_charset_witness :
    (List.replicate 16 0).length = 16 ∧
      ((make_slug (List.replicate 16 0)).length = 8 ∧
        (make_slug (List.replicate 16 0)).data.all isLowerHex = true) :=
  ⟨by decide, make_slug_len_and_charset (List.replicate 16 0) (by decide)⟩

/-! ### Helper lemmas: ObjectId hex round-trip -/

theorem foldl_hexDecode (n : Nat) : ∀ (k a : Nat),
    (((List.range k).reverse.map fun i => hexChar (n / 16 ^ i)).foldl
      (fun a c => a * 16 + hexVal c) a) = a * 16 ^ k + n % 16 ^ k := by
  intro k
  induction k with
  | zero => intro a; simp [Nat.mod_one]
  | succ k ih =>
    intro a
    rw [List.range_succ, List.reverse_append]
    simp only [List.reverse_cons, List.reverse_nil, List.nil_append, List.map_cons,
      List.map_nil, List.map_append, List.cons_append, List.foldl_cons]
    rw [ih, hexVal_hexChar]
    have h1 : n / 16 ^ k % 16 = n % (16 ^ k * 16) / 16 ^ k :=
      (Nat.mod_mul_right_div_self n (16 ^ k) 16).symm
    have h2 : n % 16 ^ k = n % (16 ^ k * 16) % 16 ^ k :=
      (Nat.mod_mod_of_dvd n (dvd_mul_right (16 ^ k) 16)).symm
    have h3 : n % (16 ^ k * 16) / 16 ^ k * 16 ^ k + n % (16 ^ k * 16) % 16 ^ k
        = n % (16 ^ k * 16) := Nat.div_add_mod' _ _
    have hp : (16 : Nat) ^ (k + 1) = 16 ^ k * 16 := pow_succ 16 k
    calc (a * 16 + n / 16 ^ k % 16) * 16 ^ k + n % 16 ^ k
        = a * (16 ^ k * 16) + (n % (16 ^ k * 16) / 16 ^ k * 16 ^ k
            + n % (16 ^ k * 16) % 16 ^ k) := by rw [← h1, ← h2]; ring
      _ = a * 16 ^ (k + 1) + n % 16 ^ (k + 1) := by rw [h3, hp]

theorem hexStrToNat_objectIdHex (n : Nat) : hexStrToNat (objectIdHex n) = n % 16 ^ 24 := by
  have := foldl_hexDecode n 24 0
  simpa [hexStrToNat, objectIdHex, objectIdHexList] using this

theorem oid_objectIdHex (n : Nat) (h : n < 16 ^ 24) : oid (objectIdHex n) = .ok n := by
  have hlen : (objectIdHex n).length = 24 := by
    show (objectIdHexList n).length = 24
    simp [objectIdHexList]
  have hall : (objectIdHex n).data.all isHexCharB = true := by
    rw [List.all_eq_true]
    intro c hc
    simp only [objectIdHex, objectIdHexList] at hc
    rw [List.mem_map] at hc
    obtain ⟨i, _, rfl⟩ := hc
    exact isHexCharB_hexChar _
  rw [oid]
  simp only [hlen, hall, Bool.and_true, beq_self_eq_true, if_true]
  rw [hexStrToNat_objectIdHex, Nat.mod_eq_of_lt h]

/-! ### Helper lemmas: lists -/

theorem find?_append_left_none {α : Type} {p : α → Bool} {l₁ l₂ : List α}
    (h : ∀ a ∈ l₁, p a = false) :
    List.find? p (l₁ ++ l₂) = List.find? p l₂ := by
  rw [List.find?_append]
  have h0 : List.find? p l₁ = none := List.find?_eq_none.mpr (by
    intro x hx
    simp [h x hx])
  rw [h0, Option.none_or]

theorem numberFrom_length {α : Type} (k : Nat) (l : List α) :
    (numberFrom k l).length = l.length := by
  induction l generalizing k with
  | nil => rfl
  | cons a rest ih => simp [numberFrom, ih]

theorem numberFrom_map_fst {α : Type} (k : Nat) (l : List α) :
    (numberFrom k l).map Prod.fst = List.range' k l.length := by
  induction l generalizing k with
  | nil => rfl
  | cons a rest ih => simp [numberFrom, List.range'_succ, ih]

/-! ### C3 -/

/-- C3 counterexample: `create_exam` reads the clock twice (once for
`created_at`, once for `updated_at`). When the clock advances between the two
`datetime.now(timezone.utc)` calls — here from 0 to 1 — the persisted exam has
`created_at = 0` but `updated_at = 1`, so the timestamps are not equal at
insert time. -/
theorem create_exam_timestamps_not_equal :
    ((create_exam none "http://t/" (List.replicate 16 0) 0 1 "https://f.example/x"
        [112, 119] ⟨[], [], 0⟩).1.exam.all fun e => e.created_at == e.updated_at) = false := by
  simp [create_exam]

/-- C3 amended: the persisted exam's `created_at` receives the first
`datetime.now(timezone.utc)` read and `updated_at` the second, so the two
timestamps are equal exactly when the two consecutive clock reads return the
same instant (they need not in general). -/
theorem create_exam_timestamps (fb : Option String) (burl : String) (seed : List Nat)
    (n1 n2 : Nat) (url : String) (pw : List Nat) (db : DB) :
    ((create_exam fb burl seed n1 n2 url pw db).1.exam.getLast?.map
      fun e => (e.created_at, e.updated_at)) = some (n1, n2) := by
  simp [create_exam]

/-! ### C8 -/

/-- C8: the returned `short_url` joins the configured public base address
(`FRONTEND_BASE_URL`, with all trailing slashes stripped) with `/x/{slug}`;
when that variable is unset the inbound request's own base URL (trailing
slashes stripped) is used instead. -/
theorem short_url_spec (fb : Option String) (burl : String) (seed : List Nat)
    (n1 n2 : Nat) (url : String) (pw : List Nat) (db : DB) :
    (∀ s, fb = some s → s ≠ "" →
      (create_exam fb burl seed n1 n2 url pw db).2.short_url =
        rstripSlashes s ++ ("/x/" ++ (create_exam fb burl seed n1 n2 url pw db).2.slug))
    ∧ (fb = none →
      (create_exam fb burl seed n1 n2 url pw db).2.short_url =
        rstripSlashes burl ++ ("/x/" ++ (create_exam fb burl seed n1 n2 url pw db).2.slug)) := by
  constructor
  · rintro s rfl hne
    simp [create_exam, hne]
  · rintro rfl
    simp [create_exam]

/-- Witness for C8: a configured base with two trailing slashes, and the
unset-variable fallback, at concrete inputs. -/
theorem short_url_spec_witness :
    ((create_exam (some "https://pub.example//") "http://req.example/"
        (List.replicate 16 0) 0 0 "https://f.example/x" [112] ⟨[], [], 0⟩).2.short_url =
      rstripSlashes "https://pub.example//" ++
        ("/x/" ++ (create_exam (some "https://pub.example//") "http://req.example/"
          (List.replicate 16 0) 0 0 "https://f.example/x" [112] ⟨[], [], 0⟩).2.slug))
    ∧ ((create_exam none "http://req.example/" (List.replicate 16 0) 0 0
        "https://f.example/x" [112] ⟨[], [], 0⟩).2.short_url =
      rstripSlashes "http://req.example/" ++
        ("/x/" ++ (create_exam none "http://req.example/" (List.replicate 16 0) 0 0
          "https://f.example/x" [112] ⟨[], [], 0⟩).2.slug)) :=
  ⟨(short_url_spec (some "https://pub.example//") "http://req.example/"
      (List.replicate 16 0) 0 0 "https://f.example/x" [112] ⟨[], [], 0⟩).1
      "https://pub.example//" rfl (by decide),
   (short_url_spec none "http://req.example/" (List.replicate 16 0) 0 0
      "https://f.example/x" [112] ⟨[], [], 0⟩).2 rfl⟩

/-! ### C9 -/

/-- C9: whenever `log_event` fails (invalid ObjectId string or missing exam),
the store is returned unchanged — in particular no `EventLogEntry` is
appended to the `examlog` collection; the only insert happens on the success
path after both checks. -/
theorem log_event_error_preserves_db (eid : String) (body : LogBody) (now : Nat)
    (ch ua : Option String) (db : DB) (err : HErr)
    (h : (log_event eid body now ch ua db).2 = .error err) :
    (log_event eid body now ch ua db).1 = db := by
  cases hoid : oid eid with
  | error e => simp [log_event, hoid]
  | ok i =>
    by_cases hf : (db.exam.find? fun e => e.oidV == i).isNone = true
    · simp [log_event, hoid, hf]
    · exfalso
      simp [log_event, hoid, hf] at h

/-- Witness for C9: an invalid id on a concrete store fails with 400 and
leaves the store unchanged. -/
theorem log_event_error_preserves_db_witness :
    (log_event "zz" ⟨"blur", none, none⟩ 3 none none ⟨[], [], 0⟩).2 =
        .error ⟨400, "Invalid ID"⟩
    ∧ (log_event "zz" ⟨"blur", none, none⟩ 3 none none ⟨[], [], 0⟩).1 = ⟨[], [], 0⟩ :=
  ⟨rfl,
   log_event_error_preserves_db "zz" ⟨"blur", none, none⟩ 3 none none ⟨[], [], 0⟩
     ⟨400, "Invalid ID"⟩ rfl⟩

/-! ### C10 -/

theorem isoCore_ne_empty (s : Int) (m : Nat) : isoCore s m ≠ "" := by
  unfold isoCore
  intro h
  have hlen := congrArg String.length h
  simp only [String.length_append] at hlen
  have h1 : ("-" : String).length = 1 := rfl
  rw [h1] at hlen
  have h0 : ("" : String).length = 0 := rfl
  rw [h0] at hlen
  omega

theorem clientIso_ne_empty (t : Int) : clientIso t ≠ "" := by
  unfold clientIso
  exact isoCore_ne_empty _ _

/-- C10: in the export loop, the client-time cell is the empty string exactly
when the stored `client_ts` is absent or equal to `0` (presence is tested by
Python truthiness, so a present `client_ts` of exactly 0 ms renders empty);
any present non-zero `client_ts` renders as its local ISO timestamp. -/
theorem client_time_cell_truthiness (k : Nat) (l : LogDoc) :
    ((rowOf k l).clientTime = "" ↔ l.client_ts = none ∨ l.client_ts = some 0)
    ∧ (∀ t : Int, l.client_ts = some t → t ≠ 0 →
        (rowOf k l).clientTime = clientIso t) := by
  constructor
  · cases hc : l.client_ts with
    | none => simp [rowOf, clientTimeCell, hc]
    | some t =>
      by_cases ht : t = 0
      · subst ht
        simp [rowOf, clientTimeCell, hc]
      · have hne : clientIso t ≠ "" := clientIso_ne_empty t
        simp [rowOf, clientTimeCell, hc, ht, hne]
  · intro t hct ht
    simp [rowOf, clientTimeCell, hct, ht]

/-- Witness for C10: a present `client_ts = 5` renders as its timestamp, a
present `client_ts = 0` renders empty. -/
theorem client_time_cell_truthiness_witness :
    (rowOf 1 ⟨0, "blur", "", some 5, 3, none, none⟩).clientTime = clientIso 5
    ∧ (rowOf 1 ⟨0, "blur", "", some 0, 3, none, none⟩).clientTime = "" :=
  ⟨(client_time_cell_truthiness 1 ⟨0, "blur", "", some 5, 3, none, none⟩).2 5 rfl (by decide),
   (client_time_cell_truthiness 1 ⟨0, "blur", "", some 0, 3, none, none⟩).1.mpr (Or.inr rfl)⟩

/-! ### C1 -/

/-- C1: for an exam created via `create_exam` and any password `p`,
`verify_exam_password` on the returned exam id answers with
`ok = (hash of creation password == hash of p)` and message "OK" when the
hashes agree, "Invalid password" otherwise; `ok = true` holds iff
`hash_password p` equals `hash_password` of the creation password (exact,
deterministic hash equality), and the original password always verifies. -/
theorem verify_password_iff_hash_eq (fb : Option String) (burl : String)
    (seed : List Nat) (n1 n2 : Nat) (url : String) (pw0 p : List Nat) (db : DB)
    (hid : db.nextId < 16 ^ 24)
    (hfresh : ∀ e ∈ db.exam, e.oidV ≠ db.nextId) :
    (verify_exam_password (create_exam fb burl seed n1 n2 url pw0 db).2.id p
        (create_exam fb burl seed n1 n2 url pw0 db).1 =
      .ok ⟨hash_password pw0 == hash_password p,
           if hash_password pw0 == hash_password p then "OK" else "Invalid password"⟩)
    ∧ ((hash_password pw0 == hash_password p) = true ↔
        hash_password p = hash_password pw0)
    ∧ (verify_exam_password (create_exam fb burl seed n1 n2 url pw0 db).2.id pw0
        (create_exam fb burl seed n1 n2 url pw0 db).1 = .ok ⟨true, "OK"⟩) := by
  have hoid : oid (objectIdHex db.nextId) = .ok db.nextId := oid_objectIdHex _ hid
  have hfind : ((create_exam fb burl seed n1 n2 url pw0 db).1.exam.find?
      fun e => e.oidV == db.nextId) =
        some ⟨db.nextId, url, hash_password pw0, make_slug seed, n1, n2⟩ := by
    show ((db.exam ++ [_]).find? _) = _
    rw [find?_append_left_none]
    · simp
    · intro a ha
      simp [hfresh a ha]
  have key : ∀ q : List Nat,
      verify_exam_password (create_exam fb burl seed n1 n2 url pw0 db).2.id q
        (create_exam fb burl seed n1 n2 url pw0 db).1 =
      .ok ⟨hash_password pw0 == hash_password q,
           if hash_password pw0 == hash_password q then "OK" else "Invalid password"⟩ := by
    intro q
    show verify_exam_password (objectIdHex db.nextId) q _ = _
    simp only [verify_exam_password, hoid, bind, Except.bind]
    rw [hfind]
  refine ⟨key p, ?_, ?_⟩
  · exact ⟨fun hb => (eq_of_beq hb).symm,
      fun he => by rw [he]; exact beq_self_eq_true _⟩
  · rw [key pw0]
    simp

/-- Witness for C1 at concrete inputs: empty store, creation password `[97]`,
verified password `[98]`. -/
theorem verify_password_iff_hash_eq_witness :
    (verify_exam_password
        (create_exam none "http://t/" (List.replicate 16 0) 0 0 "https://f.example/x"
          [97] ⟨[], [], 0⟩).2.id [98]
        (create_exam none "http://t/" (List.replicate 16 0) 0 0 "https://f.example/x"
          [97] ⟨[], [], 0⟩).1 =
      .ok ⟨hash_password [97] == hash_password [98],
           if hash_password [97] == hash_password [98] then "OK" else "Invalid password"⟩)
    ∧ ((hash_password [97] == hash_password [98]) = true ↔
        hash_password [98] = hash_password [97])
    ∧ (verify_exam_password
        (create_exam none "http://t/" (List.replicate 16 0) 0 0 "https://f.example/x"
          [97] ⟨[], [], 0⟩).2.id [97]
        (create_exam none "http://t/" (List.replicate 16 0) 0 0 "https://f.example/x"
          [97] ⟨[], [], 0⟩).1 = .ok ⟨true, "OK"⟩) :=
  verify_password_iff_hash_eq none "http://t/" (List.replicate 16 0) 0 0
    "https://f.example/x" [97] [98] ⟨[], [], 0⟩ (by norm_num) (by simp)

/-! ### C4 -/

/-- C4: an absent slug makes `get_exam_by_slug` fail with 404; a structurally
valid exam id that resolves to no stored exam makes `verify_exam_password`,
`log_event` and `export_log` fail with 404; a structurally malformed id (not
24 hex characters) makes `oid` — and hence those three endpoints, for every
store whatsoever, i.e. before any exam query can depend on the store — fail
with 400 "Invalid ID". -/
theorem missing_or_invalid_id_fails (db : DB) (s slug : String) (pw : List Nat)
    (body : LogBody) (now : Nat) (ch ua : Option String) :
    ((db.exam.find? fun e => e.slug == slug) = none →
        get_exam_by_slug slug db = .error ⟨404, "Exam not found"⟩)
    ∧ (∀ i, oid s = .ok i → (db.exam.find? fun e => e.oidV == i) = none →
        verify_exam_password s pw db = .error ⟨404, "Exam not found"⟩
        ∧ (log_event s body now ch ua db).2 = .error ⟨404, "Exam not found"⟩
        ∧ export_log s db = .error ⟨404, "Exam not found"⟩)
    ∧ (oid s = .error ⟨400, "Invalid ID"⟩ →
        verify_exam_password s pw db = .error ⟨400, "Invalid ID"⟩
        ∧ (log_event s body now ch ua db).2 = .error ⟨400, "Invalid ID"⟩
        ∧ export_log s db = .error ⟨400, "Invalid ID"⟩)
    ∧ (¬ (s.length = 24 ∧ s.data.all isHexCharB = true) →
        oid s = .error ⟨400, "Invalid ID"⟩) := by
  refine ⟨?_, ?_, ?_, ?_⟩
  · intro h
    simp [get_exam_by_slug, h]
  · intro i hi hf
    refine ⟨?_, ?_, ?_⟩
    · simp [verify_exam_password, hi, hf, bind, Except.bind]
    · simp [log_event, hi, hf]
    · simp [export_log, hi, hf, bind, Except.bind]
  · intro he
    refine ⟨?_, ?_, ?_⟩
    · simp [verify_exam_password, he, bind, Except.bind]
    · simp [log_event, he]
    · simp [export_log, he, bind, Except.bind]
  · intro hm
    rw [oid]
    have : (s.length == 24 && s.data.all isHexCharB) = false := by
      by_cases hq : (s.length == 24 && s.data.all isHexCharB) = true
      · exfalso
        rw [Bool.and_eq_true, beq_iff_eq] at hq
        exact hm ⟨hq.1, hq.2⟩
      · simpa using hq
    simp [this]

/-- Witness for C4: one store with a single exam (id 5, slug "slugy"); an
absent slug, a well-formed but unknown id (24 zeros), and a malformed id
("xyz") hit each failure. -/
theorem missing_or_invalid_id_fails_witness :
    (get_exam_by_slug "nope" ⟨[⟨5, "https://a/", "h", "slugy", 1, 1⟩], [], 6⟩ =
        .error ⟨404, "Exam not found"⟩)
    ∧ (verify_exam_password "000000000000000000000000" [97]
        ⟨[⟨5, "https://a/", "h", "slugy", 1, 1⟩], [], 6⟩ = .error ⟨404, "Exam not found"⟩)
    ∧ ((log_event "000000000000000000000000" ⟨"blur", none, none⟩ 3 none none
        ⟨[⟨5, "https://a/", "h", "slugy", 1, 1⟩], [], 6⟩).2 = .error ⟨404, "Exam not found"⟩)
    ∧ (export_log "000000000000000000000000"
        ⟨[⟨5, "https://a/", "h", "slugy", 1, 1⟩], [], 6⟩ = .error ⟨404, "Exam not found"⟩)
    ∧ (oid "xyz" = .error ⟨400, "Invalid ID"⟩)
    ∧ (verify_exam_password "xyz" [97]
        ⟨[⟨5, "https://a/", "h", "slugy", 1, 1⟩], [], 6⟩ = .error ⟨400, "Invalid ID"⟩)
    ∧ ((log_event "xyz" ⟨"blur", none, none⟩ 3 none none
        ⟨[⟨5, "https://a/", "h", "slugy", 1, 1⟩], [], 6⟩).2 = .error ⟨400, "Invalid ID"⟩)
    ∧ (export_log "xyz" ⟨[⟨5, "https://a/", "h", "slugy", 1, 1⟩], [], 6⟩ =
        .error ⟨400, "Invalid ID"⟩) := by
  have t1 := (missing_or_invalid_id_fails ⟨[⟨5, "https://a/", "h", "slugy", 1, 1⟩], [], 6⟩
    "000000000000000000000000" "nope" [97] ⟨"blur", none, none⟩ 3 none none)
  have t2 := (missing_or_invalid_id_fails ⟨[⟨5, "https://a/", "h", "slugy", 1, 1⟩], [], 6⟩
    "xyz" "nope" [97] ⟨"blur", none, none⟩ 3 none none)
  obtain ⟨g1, g2, -, -⟩ := t1
  obtain ⟨-, -, g3, g4⟩ := t2
  have h400 : oid "xyz" = .error ⟨400, "Invalid ID"⟩ := g4 (by decide)
  obtain ⟨v4, l4, e4⟩ := g2 0 rfl rfl
  obtain ⟨v0, l0, e0⟩ := g3 h400
  exact ⟨g1 rfl, v4, l4, e4, h400, v0, l0, e0⟩

/-! ### C6 -/

/-- C6 counterexample: `create_exam` performs no slug-uniqueness check and
`find_one({"slug": ...})` returns the first match in natural order. With a
pre-existing exam (id 0) whose slug equals the slug the seed will generate,
creating a second exam (id 1) and looking its returned slug up yields the
OLD exam's id and embed URL — not the id and embed URL `create_exam`
returned — refuting the round-trip at this input. -/
theorem create_then_lookup_not_roundtrip :
    get_exam_by_slug
        (create_exam none "http://t/" (List.replicate 16 0) 7 7 "https://b.example/form"
          [98] ⟨[⟨0, "https://a.example/form", "h", make_slug (List.replicate 16 0), 5, 5⟩],
            [], 1⟩).2.slug
        (create_exam none "http://t/" (List.replicate 16 0) 7 7 "https://b.example/form"
          [98] ⟨[⟨0, "https://a.example/form", "h", make_slug (List.replicate 16 0), 5, 5⟩],
            [], 1⟩).1 =
      .ok ⟨objectIdHex 0, make_slug (List.replicate 16 0), "https://a.example/form"⟩
    ∧ (create_exam none "http://t/" (List.replicate 16 0) 7 7 "https://b.example/form"
        [98] ⟨[⟨0, "https://a.example/form", "h", make_slug (List.replicate 16 0), 5, 5⟩],
          [], 1⟩).2.embed_url = "https://b.example/form"
    ∧ (create_exam none "http://t/" (List.replicate 16 0) 7 7 "https://b.example/form"
        [98] ⟨[⟨0, "https://a.example/form", "h", make_slug (List.replicate 16 0), 5, 5⟩],
          [], 1⟩).2.id = objectIdHex 1
    ∧ "https://a.example/form" ≠ "https://b.example/form"
    ∧ objectIdHex 0 ≠ objectIdHex 1 := by
  refine ⟨?_, rfl, rfl, by decide, by decide⟩
  show get_exam_by_slug (make_slug (List.replicate 16 0)) _ = _
  simp [get_exam_by_slug, create_exam]

/-- C6 amended: provided no already-stored exam carries the slug that the
random seed generates (slug collisions are never checked by the code, only
accepted as negligibly likely), `get_exam_by_slug` on the slug returned by
`create_exam` yields the same exam id and the same embed URL that
`create_exam` returned. -/
theorem create_then_lookup_roundtrip (fb : Option String) (burl : String)
    (seed : List Nat) (n1 n2 : Nat) (url : String) (pw : List Nat) (db : DB)
    (hs : ∀ e ∈ db.exam, e.slug ≠ make_slug seed) :
    get_exam_by_slug (create_exam fb burl seed n1 n2 url pw db).2.slug
        (create_exam fb burl seed n1 n2 url pw db).1 =
      .ok ⟨(create_exam fb burl seed n1 n2 url pw db).2.id,
           (create_exam fb burl seed n1 n2 url pw db).2.slug,
           (create_exam fb burl seed n1 n2 url pw db).2.embed_url⟩ := by
  have hfind : ((create_exam fb burl seed n1 n2 url pw db).1.exam.find?
      fun e => e.slug == make_slug seed) =
        some ⟨db.nextId, url, hash_password pw, make_slug seed, n1, n2⟩ := by
    show ((db.exam ++ [_]).find? _) = _
    rw [find?_append_left_none]
    · simp
    · intro a ha
      simp [hs a ha]
  show get_exam_by_slug (make_slug seed) _ = _
  simp only [get_exam_by_slug, hfind]
  rfl

/-- Witness for C6 (amended) on the empty store. -/
theorem create_then_lookup_roundtrip_witness :
    get_exam_by_slug
        (create_exam none "http://t/" (List.replicate 16 0) 0 0 "https://f.example/x"
          [97] ⟨[], [], 0⟩).2.slug
        (create_exam none "http://t/" (List.replicate 16 0) 0 0 "https://f.example/x"
          [97] ⟨[], [], 0⟩).1 =
      .ok ⟨(create_exam none "http://t/" (List.replicate 16 0) 0 0 "https://f.example/x"
              [97] ⟨[], [], 0⟩).2.id,
           (create_exam none "http://t/" (List.replicate 16 0) 0 0 "https://f.example/x"
              [97] ⟨[], [], 0⟩).2.slug,
           (create_exam none "http://t/" (List.replicate 16 0) 0 0 "https://f.example/x"
              [97] ⟨[], [], 0⟩).2.embed_url⟩ :=
  create_then_lookup_roundtrip none "http://t/" (List.replicate 16 0) 0 0
    "https://f.example/x" [97] ⟨[], [], 0⟩ (by simp)

/-! ### C2 -/

/-- C2: for an existing exam, `export_log` produces the header row followed by
one data row per stored log entry of that exam — the rows are a rendering of
a permutation of exactly those entries, arranged non-decreasing by
`server_ts`, and the sequence-number column reads 1, 2, …, N in order. -/
theorem export_log_table (db : DB) (eid : String) (i : Nat)
    (hoid : oid eid = .ok i)
    (hx : (db.exam.find? fun e => e.oidV == i).isNone = false) :
    export_log eid db =
      .ok ⟨exportHeader,
           (numberFrom 1 (List.insertionSort tsLe
             (db.examlog.filter fun l => l.exam_id == i))).map (fun p => rowOf p.1 p.2),
           "exam_" ++ eid ++ "_log.xlsx"⟩
    ∧ (List.insertionSort tsLe (db.examlog.filter fun l => l.exam_id == i)).Perm
        (db.examlog.filter fun l => l.exam_id == i)
    ∧ List.Sorted tsLe (List.insertionSort tsLe (db.examlog.filter fun l => l.exam_id == i))
    ∧ ((numberFrom 1 (List.insertionSort tsLe
          (db.examlog.filter fun l => l.exam_id == i))).map (fun p => rowOf p.1 p.2)).length
        = (db.examlog.filter fun l => l.exam_id == i).length
    ∧ ((numberFrom 1 (List.insertionSort tsLe
          (db.examlog.filter fun l => l.exam_id == i))).map (fun p => rowOf p.1 p.2)).map Row.seq
        = List.range' 1 (db.examlog.filter fun l => l.exam_id == i).length := by
  refine ⟨?_, List.perm_insertionSort tsLe _, List.sorted_insertionSort tsLe _, ?_, ?_⟩
  · simp [export_log, hoid, hx, bind, Except.bind]
  · rw [List.length_map, numberFrom_length, (List.perm_insertionSort tsLe _).length_eq]
  · rw [List.map_map]
    show (numberFrom 1 _).map Prod.fst = _
    rw [numberFrom_map_fst, (List.perm_insertionSort tsLe _).length_eq]

/- Concrete worksheet fixtures for the export witnesses: one exam (id 0) and
logs arriving out of `server_ts` order, one of them for a different exam. -/

def wExam : ExamDoc := ⟨0, "https://a.example/form", "h", "s0", 1, 1⟩

def wLogA : LogDoc := ⟨0, "focus", "", none, 5, none, none⟩

def wLogB : LogDoc := ⟨1, "other", "", none, 2, none, none⟩

def wLogC : LogDoc := ⟨0, "blur", "details", some 9, 3, none, none⟩

def wdb : DB := ⟨[wExam], [wLogA, wLogB, wLogC], 2⟩

def wdb7 : DB := ⟨[wExam], [wLogB], 2⟩

def weid : String := "000000000000000000000000"

/-- Witness for C2 on `wdb`: two of the three stored events belong to exam 0. -/
theorem export_log_table_witness :
    oid weid = .ok 0
    ∧ ((wdb.exam.find? fun e => e.oidV == 0).isNone = false)
    ∧ (export_log weid wdb =
        .ok ⟨exportHeader,
             (numberFrom 1 (List.insertionSort tsLe
               (wdb.examlog.filter fun l => l.exam_id == 0))).map (fun p => rowOf p.1 p.2),
             "exam_" ++ weid ++ "_log.xlsx"⟩
      ∧ (List.insertionSort tsLe (wdb.examlog.filter fun l => l.exam_id == 0)).Perm
          (wdb.examlog.filter fun l => l.exam_id == 0)
      ∧ List.Sorted tsLe (List.insertionSort tsLe (wdb.examlog.filter fun l => l.exam_id == 0))
      ∧ ((numberFrom 1 (List.insertionSort tsLe
            (wdb.examlog.filter fun l => l.exam_id == 0))).map (fun p => rowOf p.1 p.2)).length
          = (wdb.examlog.filter fun l => l.exam_id == 0).length
      ∧ ((numberFrom 1 (List.insertionSort tsLe
            (wdb.examlog.filter fun l => l.exam_id == 0))).map (fun p => rowOf p.1 p.2)).map Row.seq
          = List.range' 1 (wdb.examlog.filter fun l => l.exam_id == 0).length) :=
  ⟨rfl, rfl, export_log_table wdb weid 0 rfl rfl⟩

/- Fully evaluated sanity check of the export pipeline on `wdb`: the two
exam-0 events come out sorted ascending by `server_ts` (3 then 5), numbered
1 and 2, with the 9 ms client timestamp and UTC server timestamps rendered. -/
example : export_log weid wdb =
    .ok ⟨exportHeader,
         [⟨1, "blur", "details", "1970-01-01T00:00:00.009000",
            "1970-01-01T00:00:03+00:00", none, none⟩,
          ⟨2, "focus", "", "", "1970-01-01T00:00:05+00:00", none, none⟩],
         "exam_000000000000000000000000_log.xlsx"⟩ := by
  rfl

/-! ### C7 -/

/-- C7: exporting an existing exam with zero stored events succeeds and yields
exactly the single header row — sequence number, event type, details, client
time, server time, origin address, user agent — and no data rows. -/
theorem export_log_no_events (db : DB) (eid : String) (i : Nat)
    (hoid : oid eid = .ok i)
    (hx : (db.exam.find? fun e => e.oidV == i).isNone = false)
    (hnone : (db.examlog.filter fun l => l.exam_id == i) = []) :
    export_log eid db =
      .ok ⟨["#", "Event", "Details", "Client Time", "Server Time", "IP", "User Agent"],
           [], "exam_" ++ eid ++ "_log.xlsx"⟩ := by
  simp [export_log, hoid, hx, hnone, bind, Except.bind, exportHeader, numberFrom]

/-- Witness for C7 on `wdb7`: the only stored event belongs to a different
exam, so exam 0 exports as a bare header. -/
theorem export_log_no_events_witness :
    oid weid = .ok 0
    ∧ ((wdb7.exam.find? fun e => e.oidV == 0).isNone = false)
    ∧ ((wdb7.examlog.filter fun l => l.exam_id == 0) = [])
    ∧ export_log weid wdb7 =
        .ok ⟨["#", "Event", "Details", "Client Time", "Server Time", "IP", "User Agent"],
             [], "exam_" ++ weid ++ "_log.xlsx"⟩ :=
  ⟨rfl, rfl, rfl, export_log_no_events wdb7 weid 0 rfl rfl rfl⟩
